import Mathlib

/-!
# Shallow embedding of `src/sir.py`

`sir.py` implements a ring-based SIR(+V) epidemic simulation:

* a city is a Python list of `(disease_state, days_in_state)` tuples with
  `disease_state ∈ {"S", "I", "R", "V"}`;
* `has_an_infected_neighbor` inspects `city[location - 1]` and
  `city[location + 1]` (plain Python indexing: a negative index wraps once
  from the left, an index `≥ len` raises `IndexError`);
* `advance_person_at_location`, `simulate_one_day`,
  `is_transmission_possible` build the day-step and the loop condition;
* `run_simulation` is a `while` loop whose condition reads `starting_city`,
  a variable the loop body never reassigns, and whose `return` reads
  `simulated_city`, a variable that is only assigned inside the loop body
  (reading it when the loop ran zero times raises `UnboundLocalError`,
  a kind of `NameError`);
* `vaccinate_person` draws from the *global* `random.random()` stream;
  `vaccinate_city` receives a `random_seed` argument and never uses it;
* `run_trials` picks a per-trial seed with `if random_seed:` (so `None`
  and `0` are both falsy) and returns `sorted(days)[num_trials // 2]`.

The embedding is faithful to these behaviours.  Python exceptions are
modelled with `Except PyErr`; the global random stream is threaded
explicitly as a function `Nat → ℚ` together with a position, one draw per
`random.random()` call; the `while` loop is modelled with fuel, `none`
meaning the loop is still running when the fuel runs out.
-/

/-- The Python exceptions the embedded code can raise.  `nameError` stands
for the `UnboundLocalError` raised when `run_simulation` returns the never
assigned local `simulated_city`. -/
inductive PyErr where
  | assertError
  | indexError
  | nameError
deriving DecidableEq

instance {ε α : Type} [DecidableEq ε] [DecidableEq α] :
    DecidableEq (Except ε α) := fun x y =>
  match x, y with
  | .ok a, .ok b =>
    if h : a = b then .isTrue (by rw [h])
    else .isFalse (by intro he; cases he; exact h rfl)
  | .error a, .error b =>
    if h : a = b then .isTrue (by rw [h])
    else .isFalse (by intro he; cases he; exact h rfl)
  | .ok _, .error _ => .isFalse (by intro he; cases he)
  | .error _, .ok _ => .isFalse (by intro he; cases he)

/-- A person tuple `(disease_state, days_in_state)` as in `sir.py`. -/
abbrev Person := String × Nat

/-- A vax tuple `(disease_state, days_in_state, eagerness)`; the float
eagerness is embedded as a rational. -/
abbrev VaxPerson := String × Nat × ℚ

/-- A city: a Python list of person tuples. -/
abbrev City := List Person

/-- The global stream of `random.random()` draws, one rational per call. -/
abbrev RandStream := Nat → ℚ

/-- Python list indexing `l[i]`: `0 ≤ i < len` reads directly, a negative
index wraps once from the end, anything else raises `IndexError`. -/
def pyGet {α : Type} (l : List α) (i : Int) : Except PyErr α :=
  let j : Int := if i < 0 then i + l.length else i
  if j < 0 then .error .indexError
  else
    match l.get? j.toNat with
    | some a => .ok a
    | none => .error .indexError

/-- A Python `assert`: raises `AssertionError` when the condition fails. -/
def pyAssert (p : Prop) [Decidable p] : Except PyErr Unit :=
  if p then .ok () else .error .assertError

/-- `has_an_infected_neighbor(city, location)` from `sir.py` lines 16-38:
asserts the location is in range and holds a susceptible person, then reads
`city[location - 1]` and `city[location + 1]` with Python indexing. -/
def has_an_infected_neighbor (city : City) (location : Int) :
    Except PyErr Bool := do
  pyAssert (0 ≤ location ∧ location < (city.length : Int))
  let (disease_state, _) ← pyGet city location
  pyAssert (disease_state = "S")
  let (disease_state_left, _) ← pyGet city (location - 1)
  let (disease_state_right, _) ← pyGet city (location + 1)
  return (disease_state_left == "I" || disease_state_right == "I")

/-- `advance_person_at_location(city, location, days_contagious)` from
`sir.py` lines 41-71: the `if / elif / else` chain computing the next
`(state, days)` pair, with Python short-circuiting (the neighbor check runs
only for susceptible people). -/
def advance_person_at_location (city : City) (location : Int)
    (days_contagious : Nat) : Except PyErr Person := do
  pyAssert (0 ≤ location ∧ location < (city.length : Int))
  let (disease_state, days) ← pyGet city location
  if disease_state == "S" then
    let b ← has_an_infected_neighbor city location
    if b then
      return ("I", 0)
    else
      return (disease_state, days + 1)
  else if disease_state == "I" && days + 1 == days_contagious then
    return ("R", 0)
  else
    return (disease_state, days + 1)

/-- `simulate_one_day(starting_city, days_contagious)` from `sir.py`
lines 74-91: advance every location in order, the first exception
propagating. -/
def simulate_one_day (starting_city : City) (days_contagious : Nat) :
    Except PyErr City :=
  (List.range starting_city.length).mapM
    (fun location =>
      advance_person_at_location starting_city (location : Int) days_contagious)

/-- The `for` loop of `is_transmission_possible`, scanning the remaining
suffix of the city while tracking the current location. -/
def is_transmission_possibleAux (city : City) :
    List Person → Nat → Except PyErr Bool
  | [], _ => .ok false
  | (disease_state, _) :: rest, location =>
    if disease_state == "S" then do
      let b ← has_an_infected_neighbor city (location : Int)
      if b then
        return true
      else
        is_transmission_possibleAux city rest (location + 1)
    else
      is_transmission_possibleAux city rest (location + 1)

/-- `is_transmission_possible(city)` from `sir.py` lines 94-108. -/
def is_transmission_possible (city : City) : Except PyErr Bool :=
  is_transmission_possibleAux city city 0

/-- The `while` loop of `run_simulation`, with fuel.  The condition is
evaluated on `starting_city`, which the body never reassigns — exactly as
in the source.  `none` means the fuel ran out with the loop still running;
on exit with zero completed iterations the read of `simulated_city` raises
(`UnboundLocalError`, embedded as `nameError`). -/
def run_simulationLoop (starting_city : City) (days_contagious : Nat) :
    Nat → Option City → Nat → Option (Except PyErr (City × Nat))
  | 0, _, _ => none
  | fuel + 1, simulated_city, simulated_days =>
    match is_transmission_possible starting_city with
    | .error e => some (.error e)
    | .ok true =>
      match simulate_one_day starting_city days_contagious with
      | .error e => some (.error e)
      | .ok c =>
        run_simulationLoop starting_city days_contagious fuel (some c)
          (simulated_days + 1)
    | .ok false =>
      match simulated_city with
      | none => some (.error .nameError)
      | some c => some (.ok (c, simulated_days))

/-- `run_simulation(starting_city, days_contagious)` from `sir.py`
lines 111-129, with fuel bounding the number of loop iterations observed. -/
def run_simulation (starting_city : City) (days_contagious : Nat)
    (fuel : Nat) : Option (Except PyErr (City × Nat)) :=
  run_simulationLoop starting_city days_contagious fuel none 0

/-- `vaccinate_person(vax_tuple)` from `sir.py` lines 132-151: a
susceptible person consumes one draw from the global stream (position
`pos`) and is vaccinated when the draw is below their eagerness; everyone
else is returned unchanged without drawing. -/
def vaccinate_person (vax_tuple : VaxPerson) (stream : RandStream)
    (pos : Nat) : Person × Nat :=
  let (disease_state, days, eagerness) := vax_tuple
  if disease_state == "S" then
    let e := stream pos
    if e < eagerness then
      (("V", 0), pos + 1)
    else
      ((disease_state, days), pos + 1)
  else
    ((disease_state, days), pos)

/-- The `for` loop of `vaccinate_city`, threading the stream position. -/
def vaccinate_cityAux (stream : RandStream) :
    List VaxPerson → Nat → City × Nat
  | [], pos => ([], pos)
  | person :: rest, pos =>
    let (p, pos') := vaccinate_person person stream pos
    let (ps, pos'') := vaccinate_cityAux stream rest pos'
    (p :: ps, pos'')

/-- `vaccinate_city(city_vax_tuples, random_seed)` from `sir.py`
lines 154-173.  As in the source, the `random_seed` parameter is accepted
and never used: the randomness comes from the global stream alone. -/
def vaccinate_city (city_vax_tuples : List VaxPerson)
    (random_seed : Option Int) (stream : RandStream) (pos : Nat) :
    City × Nat :=
  vaccinate_cityAux stream city_vax_tuples pos

/-- `vaccinate_and_simulate(city_vax_tuples, days_contagious, random_seed)`
from `sir.py` lines 176-192. -/
def vaccinate_and_simulate (city_vax_tuples : List VaxPerson)
    (days_contagious : Nat) (random_seed : Option Int) (stream : RandStream)
    (pos : Nat) (fuel : Nat) :
    Option (Except PyErr (City × Nat)) × Nat :=
  let (vaxxed_city, pos') :=
    vaccinate_city city_vax_tuples random_seed stream pos
  (run_simulation vaxxed_city days_contagious fuel, pos')

/-- The per-trial seed chosen by `run_trials` (`sir.py` lines 214-222):
Python's `if random_seed:` treats both `None` and `0` as falsy, so only a
nonzero seed gets the trial index added. -/
def trialSeed (random_seed : Option Int) (i : Nat) : Option Int :=
  match random_seed with
  | some s => if s ≠ 0 then some (s + i) else some s
  | none => none

/-- The median line of `run_trials` (`sir.py` line 226):
`sorted(days)[num_trials // 2]`, `none` when the index is out of range. -/
def run_trialsMedian (days : List Nat) (num_trials : Nat) : Option Nat :=
  (List.insertionSort (fun a b => a ≤ b) days)[num_trials / 2]?

/-- The `for` loop of `run_trials` over the trial indices, accumulating the
day counts; a trial that raises propagates its exception, a trial whose
simulation is still running when the fuel runs out yields `none`. -/
def run_trialsAux (vax_city : List VaxPerson) (days_contagious : Nat)
    (random_seed : Option Int) (num_trials : Nat) (stream : RandStream)
    (fuel : Nat) : List Nat → Nat → List Nat →
    Option (Except PyErr Nat) × Nat
  | [], pos, days =>
    (match run_trialsMedian days num_trials with
     | some m => some (.ok m)
     | none => some (.error .indexError), pos)
  | i :: rest, pos, days =>
    let (res, pos') :=
      vaccinate_and_simulate vax_city days_contagious
        (trialSeed random_seed i) stream pos fuel
    match res with
    | none => (none, pos')
    | some (.error e) => (some (.error e), pos')
    | some (.ok (_, num_days_simulated)) =>
      run_trialsAux vax_city days_contagious random_seed num_trials stream
        fuel rest pos' (days ++ [num_days_simulated])

/-- `run_trials(vax_city, days_contagious, random_seed, num_trials)` from
`sir.py` lines 197-226, over an explicit global stream and position. -/
def run_trials (vax_city : List VaxPerson) (days_contagious : Nat)
    (random_seed : Option Int) (num_trials : Nat) (stream : RandStream)
    (pos : Nat) (fuel : Nat) : Option (Except PyErr Nat) × Nat :=
  run_trialsAux vax_city days_contagious random_seed num_trials stream fuel
    (List.range num_trials) pos []

/-! ## Theorems -/

/-- The loop body of `run_simulation` never reassigns `starting_city`, so
the loop condition is evaluated on the same city at every iteration: when
it holds once and the day-step does not raise, the loop never exits,
whatever the accumulated loop state is. -/
theorem run_simulationLoop_stuck (fuel : Nat) :
    ∀ (sc : Option City) (sd : Nat),
      run_simulationLoop [("S", 0), ("I", 0)] 2 fuel sc sd = none := by
  induction fuel with
  | zero => intro sc sd; rfl
  | succ n ih => intro sc sd; exact ih (some [("I", 0), ("I", 1)]) (sd + 1)

/-- C1: the claim says `run_simulation` terminates for every finite,
well-formed city and positive `days_contagious`.  It is false: on the
well-formed two-person city `[("S",0),("I",0)]` with `days_contagious = 2`
the loop condition is true, the day-step succeeds, and since the loop body
never reassigns `starting_city` the condition stays true forever — no
amount of fuel makes the loop return. -/
theorem run_simulation_nonterminating :
    ∀ fuel : Nat, run_simulation [("S", 0), ("I", 0)] 2 fuel = none :=
  fun fuel => run_simulationLoop_stuck fuel none 0

/-- C2: the claim says that on a city with no susceptible (or no infected)
people the loop runs zero times and returns the original city with day
count 0.  The code instead raises: with no susceptible person
(`[("R",0),("I",3)]`) the predicate is `False` but the `return` statement
reads the never-assigned local `simulated_city`, raising
`UnboundLocalError`; and with no infected person but a susceptible one at
the last index (`[("R",0),("S",0)]`) the predicate itself raises
`IndexError` instead of being `False`. -/
theorem run_simulation_zero_step_raises :
    ∀ fuel : Nat,
      is_transmission_possible [("R", 0), ("I", 3)] = .ok false ∧
      run_simulation [("R", 0), ("I", 3)] 2 (fuel + 1) =
        some (.error .nameError) ∧
      is_transmission_possible [("R", 0), ("S", 0)] = .error .indexError :=
  fun _ => ⟨by decide, rfl, by decide⟩

/-- C3: the claim says `has_an_infected_neighbor` consults
`(p-1) mod N` and `(p+1) mod N`, so at `p = N-1` the right neighbor is
position 0.  The left lookup `city[location - 1]` does wrap (Python
negative indexing), but the right lookup `city[location + 1]` does not:
at the last position it raises `IndexError` instead of consulting
position 0 — on `[("I",0),("S",0)]` at location 1 the claim predicts
`True` (the person at `(1+1) mod 2 = 0` is infected), the code raises. -/
theorem has_an_infected_neighbor_no_right_wrap :
    has_an_infected_neighbor [("I", 0), ("S", 0), ("S", 0)] 1 = .ok true ∧
    has_an_infected_neighbor [("S", 0), ("R", 0), ("I", 0)] 0 = .ok true ∧
    has_an_infected_neighbor [("I", 0), ("S", 0)] 1 = .error .indexError :=
  by decide

/-- C4: the claim says one day-step on `[("S",0),("I",0),("S",0)]` with
`days_contagious = 2` yields `[("I",0),("I",1),("I",0)]`.  Positions 0 and
1 do advance as claimed, but at position 2 the right-neighbor lookup
`city[3]` raises `IndexError`, so `simulate_one_day` raises instead of
returning the claimed city. -/
theorem simulate_one_day_ring3_raises :
    simulate_one_day [("S", 0), ("I", 0), ("S", 0)] 2 = .error .indexError ∧
    advance_person_at_location [("S", 0), ("I", 0), ("S", 0)] 0 2 =
      .ok ("I", 0) ∧
    advance_person_at_location [("S", 0), ("I", 0), ("S", 0)] 1 2 =
      .ok ("I", 1) ∧
    advance_person_at_location [("S", 0), ("I", 0), ("S", 0)] 2 2 =
      .error .indexError := by decide

/-- C5: the claim says two runs of `run_trials` with the same seed produce
identical results.  Nothing in `sir.py` ever seeds the generator (the seed
argument is dropped, see C10), so a second run continues the global stream
where the first one left it: with the one-susceptible city
`[("S",0,7/10)]`, seed 5, one trial, and global draws `0.3, 0.9, …`, the
first run vaccinates (draw `0.3 < 0.7`) and then raises
`UnboundLocalError` inside `run_simulation`, while the second run starts
at stream position 1, leaves the person susceptible (`0.9 ≥ 0.7`) and
raises `IndexError` — two different outcomes for the same seed. -/
theorem run_trials_same_seed_not_reproducible :
    run_trials [("S", 0, mkRat 7 10)] 2 (some 5) 1
        (fun n => if n = 0 then mkRat 3 10 else mkRat 9 10) 0 5 =
      (some (.error .nameError), 1) ∧
    run_trials [("S", 0, mkRat 7 10)] 2 (some 5) 1
        (fun n => if n = 0 then mkRat 3 10 else mkRat 9 10) 1 5 =
      (some (.error .indexError), 2) ∧
    (some (Except.error PyErr.nameError) : Option (Except PyErr Nat)) ≠
      some (.error .indexError) := by decide

/-- C6 counterexample: the claim says that for every provided base seed,
base seed 0 included, trial `i` uses seed `base_seed + i`.  Python's
`if random_seed:` treats 0 as falsy, so with base seed 0 trial 1 is given
seed 0, not `0 + 1`. -/
theorem trialSeed_zero_counterexample :
    trialSeed (some 0) 1 = some 0 ∧
    (some (0 : Int) : Option Int) ≠ some ((0 : Int) + (1 : Nat)) := by decide

/-- C6 amended: only a provided *nonzero* base seed gives trial `i` the
seed `base_seed + i`; a base seed of 0 is passed through unchanged to
every trial (Python falsiness conflates it with "no seed"), and an absent
seed stays absent. -/
theorem trialSeed_policy_amended (s : Int) (i : Nat) (hs : s ≠ 0) :
    trialSeed (some s) i = some (s + i) ∧
    trialSeed (some 0) i = some 0 ∧
    trialSeed none i = none := by
  refine ⟨?_, ?_, rfl⟩
  · simp [trialSeed, hs]
  · simp [trialSeed]

/-- C6 amended, instantiated: base seed 5, trial 3 gets seed 8; base seed
0 and the absent seed are passed through. -/
theorem trialSeed_policy_amended_witness :
    trialSeed (some 5) 3 = some ((5 : Int) + (3 : Nat)) ∧
    trialSeed (some 0) 3 = some 0 ∧
    trialSeed none 3 = none :=
  trialSeed_policy_amended 5 3 (by decide)

/-- C7: the claim says the transition rules apply at *every* position.
Rules 1-3 do fire as claimed away from the ring boundary (first five
conjuncts: fresh infection, recovery at `days + 1 = days_contagious`,
unchanged-state day increment for S, R and V), but a susceptible person at
the last position makes the rule-1 neighbor check raise `IndexError`
(last conjunct) where the claim predicts `("I", 0)`. -/
theorem advance_person_rules_and_boundary :
    advance_person_at_location [("S", 0), ("I", 0)] 0 2 = .ok ("I", 0) ∧
    advance_person_at_location [("I", 1), ("S", 0)] 0 2 = .ok ("R", 0) ∧
    advance_person_at_location [("S", 0), ("R", 0), ("S", 0)] 0 2 =
      .ok ("S", 1) ∧
    advance_person_at_location [("I", 0), ("R", 3), ("V", 1), ("S", 2)] 1 2 =
      .ok ("R", 4) ∧
    advance_person_at_location [("I", 0), ("R", 3), ("V", 1), ("S", 2)] 2 2 =
      .ok ("V", 2) ∧
    advance_person_at_location [("I", 0), ("S", 0)] 1 2 =
      .error .indexError := by decide

/-- C8 counterexample: the claim calls `sorted(days)[T // 2]` the
*lower*-median for even `T`.  For the day-counts `[1,2,3,4]` (`T = 4`) the
two middle elements of the sorted list are 2 (index 1, the lower median)
and 3 (index 2); the code returns index `4 // 2 = 2`, i.e. 3, not the
lower median 2. -/
theorem run_trialsMedian_not_lower_median :
    run_trialsMedian [1, 2, 3, 4] 4 = some 3 ∧
    (List.insertionSort (fun a b => a ≤ b) [1, 2, 3, 4])[1]? = some 2 ∧
    (some 3 : Option Nat) ≠ some 2 := by decide

/-- C8 amended: `run_trials` returns the element at index `T / 2` of the
sorted day-counts — the *upper* median for even `T` — and in particular 2
for `[3,1,2]`: for any nonempty day-count list there is a sorted
permutation of it whose `T / 2`-th element is exactly the returned
median. -/
theorem run_trialsMedian_sorted_index (days : List Nat) (T : Nat)
    (hlen : days.length = T) (hT : 0 < T) :
    run_trialsMedian [3, 1, 2] 3 = some 2 ∧
    run_trialsMedian [1, 2, 3, 4] 4 = some 3 ∧
    ∃ l', List.Sorted (· ≤ ·) l' ∧ l'.Perm days ∧
      ∃ h : T / 2 < l'.length,
        run_trialsMedian days T = some (l'.get ⟨T / 2, h⟩) := by
  refine ⟨by decide, by decide, List.insertionSort (fun a b => a ≤ b) days,
    List.sorted_insertionSort _ days, List.perm_insertionSort _ days, ?_, ?_⟩
  · rw [List.length_insertionSort, hlen]
    exact Nat.div_lt_self hT (by norm_num)
  · rw [run_trialsMedian]
    rw [List.getElem?_eq_getElem, List.get_eq_getElem]

/-- C8 amended, instantiated at `days = [3,1,2]`, `T = 3`. -/
theorem run_trialsMedian_sorted_index_witness :
    run_trialsMedian [3, 1, 2] 3 = some 2 ∧
    run_trialsMedian [1, 2, 3, 4] 4 = some 3 ∧
    ∃ l', List.Sorted (· ≤ ·) l' ∧ l'.Perm [3, 1, 2] ∧
      ∃ h : 3 / 2 < l'.length,
        run_trialsMedian [3, 1, 2] 3 = some (l'.get ⟨3 / 2, h⟩) :=
  run_trialsMedian_sorted_index [3, 1, 2] 3 rfl (by decide)

/-- C9: a susceptible person with eagerness 0 is never vaccinated (the
draw `r` satisfies `0 ≤ r`, so `r < 0` fails) and keeps their state and
day count, though one draw is consumed; a susceptible person with
eagerness 1 is always vaccinated to `("V", 0)` (`r < 1` holds for a draw
in `[0,1)`); a non-susceptible person is returned with state and day count
unchanged, the eagerness dropped, and no draw consumed. -/
theorem vaccinate_person_eagerness_edges (stream : RandStream)
    (pos days d : Nat) (ds : String) (e : ℚ) (h0 : 0 ≤ stream pos)
    (h1 : stream pos < 1) (hds : ds ≠ "S") :
    vaccinate_person ("S", days, 0) stream pos = (("S", days), pos + 1) ∧
    vaccinate_person ("S", days, 1) stream pos = (("V", 0), pos + 1) ∧
    vaccinate_person (ds, d, e) stream pos = ((ds, d), pos) := by
  refine ⟨?_, ?_, ?_⟩
  · simp [vaccinate_person, not_lt.mpr h0]
  · simp [vaccinate_person, h1]
  · simp [vaccinate_person, hds]

/-- C9, instantiated: draw `1/2` (which lies in `[0,1)`), a susceptible
person with eagerness 0 and with eagerness 1, and a recovered person. -/
theorem vaccinate_person_eagerness_edges_witness :
    vaccinate_person ("S", 4, 0) (fun _ => mkRat 1 2) 0 = (("S", 4), 1) ∧
    vaccinate_person ("S", 4, 1) (fun _ => mkRat 1 2) 0 = (("V", 0), 1) ∧
    vaccinate_person ("R", 2, mkRat 1 2) (fun _ => mkRat 1 2) 0 =
      (("R", 2), 0) :=
  vaccinate_person_eagerness_edges (fun _ => mkRat 1 2) 0 4 2 "R"
    (mkRat 1 2) (by decide) (by decide) (by decide)

/-- C10: `vaccinate_city` accepts a `random_seed` argument and never reads
it — with the same global draw stream, any two seed values give identical
outputs. -/
theorem vaccinate_city_ignores_seed (city_vax_tuples : List VaxPerson)
    (s1 s2 : Option Int) (stream : RandStream) (pos : Nat) :
    vaccinate_city city_vax_tuples s1 stream pos =
      vaccinate_city city_vax_tuples s2 stream pos := rfl
